import Mathlib

/-!
Shallow embedding of the local data layer and derived-statistics engine of a
habit-tracking application. Sources embedded here:

* `src/services/LocalStorageService.ts` — the storage service (users, profile,
  daily records, settings; register/login, CRUD, import/export).
* `src/unnamed/part_000` (StatsContext) — `calculateStats`: streak and 30-day
  completion rate over the record list.
* `src/app/_layout.tsx` (HomeScreen) — `calculateCurrentMonthStats`: the
  calendar-month progress metric shown on the home screen.

Modelling conventions: a calendar day is its epoch-day number (`Int`); a
JavaScript `Date` value is its epoch timestamp in milliseconds, so the parse
of the `date` string of a record is `date * dayMs`, and "now" is
`today * dayMs + tod` with `0 ≤ tod < dayMs`.  JavaScript objects with
optional keys become structures with `Option` fields; an update object of
`Partial` type becomes a "patch" structure whose fields are all `Option`
(`none` = key absent).  The spread merge `\x7b...old, ...patch\x7d` becomes a
field-wise `Option.getD`/`<|>` merge.  `AsyncStorage` is a `Store` structure
with one field per storage key; `throw` becomes `Except.error` paired with
the unmodified store (the source throws before any write).
-/

namespace AppSpec

/-- Milliseconds in a calendar day. -/
def dayMs : Int := 86400000

/-- `DailyRecord` from LocalStorageService.ts (dates as epoch-day numbers). -/
structure DailyRecord where
  id : String
  date : Int
  capsules : Int
  time : String
  notes : Option String
  completed : Bool
  createdAt : String
  updatedAt : String
deriving Repr, DecidableEq

instance : Inhabited DailyRecord :=
  ⟨{ id := "", date := 0, capsules := 0, time := "", notes := none,
     completed := false, createdAt := "", updatedAt := "" }⟩

/-- `User` from LocalStorageService.ts. -/
structure User where
  id : String
  email : String
  name : String
  createdAt : String
  updatedAt : String
deriving Repr, DecidableEq

/-- A stored profile object: every key of `UserProfile` may be absent,
because `updateUserProfile` spreads a patch over a possibly-null current
profile, so the stored object can lack any field. -/
structure ProfileObj where
  name : Option String
  dateOfBirth : Option String
  gender : Option String
  email : Option String
  phone : Option String
  profileImageUrl : Option String
  treatmentStartDate : Option String
  hasSeenTutorial : Option Bool
  createdAt : Option String
  updatedAt : Option String
deriving Repr, DecidableEq

/-- The empty object: spread of a null current profile. -/
def emptyProfileObj : ProfileObj :=
  { name := none, dateOfBirth := none, gender := none, email := none,
    phone := none, profileImageUrl := none, treatmentStartDate := none,
    hasSeenTutorial := none, createdAt := none, updatedAt := none }

/-- `UserSettings` from LocalStorageService.ts. -/
structure UserSettings where
  notifications : Bool
  reminderTime : String
  dailyGoal : Int
  weeklyGoal : Int
  theme : String
  language : String
  createdAt : String
  updatedAt : String
deriving Repr, DecidableEq

/-- An update object of type `Partial DailyRecord`: each key optional. -/
structure DailyRecordPatch where
  id : Option String := none
  date : Option Int := none
  capsules : Option Int := none
  time : Option String := none
  notes : Option String := none
  completed : Option Bool := none
  createdAt : Option String := none
  updatedAt : Option String := none
deriving Repr, DecidableEq

/-- An update object of type `Partial UserSettings`: each key optional. -/
structure SettingsPatch where
  notifications : Option Bool := none
  reminderTime : Option String := none
  dailyGoal : Option Int := none
  weeklyGoal : Option Int := none
  theme : Option String := none
  language : Option String := none
  createdAt : Option String := none
  updatedAt : Option String := none
deriving Repr, DecidableEq

/-- The spread merge in `updateDailyRecord`:
`\x7b ...records[i], ...updates, updatedAt: now \x7d`.  A key present in the
patch overwrites; `updatedAt` is stamped last, so it is always `now`. -/
def mergeRecord (old : DailyRecord) (u : DailyRecordPatch) (now : String) :
    DailyRecord :=
  { id := u.id.getD old.id
    date := u.date.getD old.date
    capsules := u.capsules.getD old.capsules
    time := u.time.getD old.time
    notes := u.notes <|> old.notes
    completed := u.completed.getD old.completed
    createdAt := u.createdAt.getD old.createdAt
    updatedAt := now }

/-- The spread merge in `updateUserProfile`:
`\x7b ...currentProfile, ...updates, updatedAt: now \x7d`, where the patch is
itself an arbitrary object of optional keys. -/
def mergeProfile (cur : ProfileObj) (u : ProfileObj) (now : String) :
    ProfileObj :=
  { name := u.name <|> cur.name
    dateOfBirth := u.dateOfBirth <|> cur.dateOfBirth
    gender := u.gender <|> cur.gender
    email := u.email <|> cur.email
    phone := u.phone <|> cur.phone
    profileImageUrl := u.profileImageUrl <|> cur.profileImageUrl
    treatmentStartDate := u.treatmentStartDate <|> cur.treatmentStartDate
    hasSeenTutorial := u.hasSeenTutorial <|> cur.hasSeenTutorial
    createdAt := u.createdAt <|> cur.createdAt
    updatedAt := some now }

/-- The spread merge in `updateUserSettings`:
`\x7b ...currentSettings, ...updates, updatedAt: now \x7d`. -/
def mergeSettings (old : UserSettings) (u : SettingsPatch) (now : String) :
    UserSettings :=
  { notifications := u.notifications.getD old.notifications
    reminderTime := u.reminderTime.getD old.reminderTime
    dailyGoal := u.dailyGoal.getD old.dailyGoal
    weeklyGoal := u.weeklyGoal.getD old.weeklyGoal
    theme := u.theme.getD old.theme
    language := u.language.getD old.language
    createdAt := u.createdAt.getD old.createdAt
    updatedAt := now }

/-- The key-value store: one field per storage key of the service. -/
structure Store where
  users : List User
  currentUser : Option User
  authToken : Option String
  profile : Option ProfileObj
  records : List DailyRecord
  settings : Option UserSettings
  tutorialSeen : Bool
deriving Repr, DecidableEq

/-- A store with every key absent. -/
def freshStore : Store :=
  { users := [], currentUser := none, authToken := none, profile := none,
    records := [], settings := none, tutorialSeen := false }

/-- JavaScript `toLowerCase`, used for the case-insensitive email match:
each character of the string is lowered. -/
def lowerStr (s : String) : String := ⟨s.data.map Char.toLower⟩

/-- The sort relation of `getDailyRecords`: the comparator
`new Date(b.date).getTime() - new Date(a.date).getTime()` orders records by
date descending. -/
def dateGe (a b : DailyRecord) : Prop := b.date ≤ a.date

instance : DecidableRel dateGe := fun a b =>
  inferInstanceAs (Decidable (b.date ≤ a.date))

instance : IsTotal DailyRecord dateGe := ⟨fun a b => le_total b.date a.date⟩

instance : IsTrans DailyRecord dateGe :=
  ⟨fun _ _ _ h1 h2 => le_trans h2 h1⟩

/-- The stable sort performed by `Array.prototype.sort` on the record list
with the date-descending comparator. -/
def sortRecords (l : List DailyRecord) : List DailyRecord :=
  l.insertionSort dateGe

/-- `getDailyRecords`: read the stored list and sort by date descending. -/
def getDailyRecords (s : Store) : List DailyRecord := sortRecords s.records

/-- `getUserProfile`: read the stored profile, null when absent. -/
def getUserProfile (s : Store) : Option ProfileObj := s.profile

/-- `getCurrentUser`: the session user, present only when both the
current-user entry and the auth token are stored. -/
def getCurrentUser (s : Store) : Option User :=
  match s.currentUser, s.authToken with
  | some u, some _ => some u
  | _, _ => none

/-- The default settings object seeded by `registerUser` or by
`getUserSettings` on first read. -/
def defaultSettings (now : String) : UserSettings :=
  { notifications := true, reminderTime := "09:00", dailyGoal := 2,
    weeklyGoal := 14, theme := "light", language := "en",
    createdAt := now, updatedAt := now }

/-- `getUserSettings`: return the stored settings, or create, persist and
return the defaults when none are stored. -/
def getUserSettings (now : String) (s : Store) : UserSettings × Store :=
  match s.settings with
  | some st => (st, s)
  | none => (defaultSettings now, { s with settings := some (defaultSettings now) })

/-- The default profile seeded by `registerUser` (`nowLocale` embeds
`toLocaleDateString` of the registration moment). -/
def defaultProfile (name email nowISO nowLocale : String) : ProfileObj :=
  { emptyProfileObj with
    name := some name, email := some email,
    treatmentStartDate := some nowLocale, hasSeenTutorial := some false,
    createdAt := some nowISO, updatedAt := some nowISO }

/-- The `User` object built by `registerUser` (`nowMs` embeds `Date.now()`,
`nowISO` embeds `toISOString` of the same moment). -/
def registeredUser (email name : String) (nowMs : Int) (nowISO : String) :
    User :=
  { id := "user_" ++ toString nowMs, email := email, name := name,
    createdAt := nowISO, updatedAt := nowISO }

/-- `registerUser`: reject a case-insensitive duplicate email, otherwise
append the new user, set the session, and seed default profile and
settings.  The thrown error leaves the store untouched (the source throws
before any write). -/
def registerUser (email _password name : String) (nowMs : Int)
    (nowISO nowLocale : String) (s : Store) : Except String User × Store :=
  match s.users.find? (fun u => lowerStr u.email == lowerStr email) with
  | some _ => (Except.error "Email already exists", s)
  | none =>
    let newUser := registeredUser email name nowMs nowISO
    (Except.ok newUser,
     { s with
       users := s.users ++ [newUser]
       currentUser := some newUser
       authToken := some ("token_" ++ toString nowMs)
       profile := some (defaultProfile name email nowISO nowLocale)
       settings := some (defaultSettings nowISO) })

/-- `loginUser`: find a case-insensitive email match; the password is never
inspected.  On success set the session with a fresh token. -/
def loginUser (email _password : String) (nowMs : Int) (s : Store) :
    Except String User × Store :=
  match s.users.find? (fun u => lowerStr u.email == lowerStr email) with
  | none => (Except.error "User not found", s)
  | some u =>
    (Except.ok u,
     { s with currentUser := some u
              authToken := some ("token_" ++ toString nowMs) })

/-- `updateDailyRecord`: find the record by id in the (sorted) list read
from storage; throw when absent, otherwise merge-write at that index. -/
def updateDailyRecord (recordId : String) (u : DailyRecordPatch)
    (now : String) (s : Store) : Except String Unit × Store :=
  match (getDailyRecords s).findIdx? (fun r => r.id == recordId) with
  | none => (Except.error "Record not found", s)
  | some i =>
    (Except.ok (),
     { s with records := (getDailyRecords s).set i (mergeRecord (((getDailyRecords s).get? i).getD default) u now) })

/-- `updateUserProfile`: spread the patch over the current profile (an empty
object when none is stored) and stamp `updatedAt`.  Never fails. -/
def updateUserProfile (u : ProfileObj) (now : String) (s : Store) : Store :=
  let merged := mergeProfile ((getUserProfile s).getD emptyProfileObj) u now
  { s with profile := some merged }

/-- `updateUserSettings`: read-or-default the current settings, then
merge-write the patch with a fresh `updatedAt`. -/
def updateUserSettings (u : SettingsPatch) (now : String) (s : Store) :
    Store :=
  let cs := getUserSettings now s
  { cs.2 with settings := some (mergeSettings cs.1 u now) }

/-- The JSON document produced by `exportAllData`; an `Option` field models
a key that is absent or null (and hence falsy on import). -/
structure ExportData where
  user : Option User
  profile : Option ProfileObj
  records : Option (List DailyRecord)
  settings : Option UserSettings
  metaVersion : String
  metaExportDate : String
  metaPlatform : String
deriving Repr, DecidableEq

/-- `exportAllData`: serialize user, profile, sorted records, settings and
metadata.  Reading the settings seeds defaults when absent, so the store is
returned alongside. -/
def exportAllData (now : String) (s : Store) : ExportData × Store :=
  let st := getUserSettings now s
  ({ user := getCurrentUser s
     profile := getUserProfile s
     records := some (getDailyRecords s)
     settings := some st.1
     metaVersion := "1.0.0"
     metaExportDate := now
     metaPlatform := "MaxTestorin Tracker" }, st.2)

/-- `importAllData`: overwrite profile, records and settings wholesale, each
only when present (truthy) in the document; `user` and metadata are never
read. -/
def importAllData (d : ExportData) (s : Store) : Store :=
  let s1 := match d.profile with
    | some p => { s with profile := some p }
    | none => s
  let s2 := match d.records with
    | some rs => { s1 with records := rs }
    | none => s1
  match d.settings with
  | some st => { s2 with settings := some st }
  | none => s2

/-- The loop body of the streak computation in `calculateStats`
(StatsContext): walk the date-descending completed records, counting while
the record at index `i` is dated `today - i`, and stop at the first
mismatch. -/
def streakWalk (today : Int) : List DailyRecord → Nat → Nat
  | [], _ => 0
  | r :: rs, i =>
    if r.date = today - (i : Int) then streakWalk today rs (i + 1) + 1 else 0

/-- `currentStreak` of `calculateStats`: sort the completed records by date
descending and walk from index 0. -/
def calculateStreak (records : List DailyRecord) (today : Int) : Nat :=
  streakWalk today (sortRecords (records.filter (·.completed))) 0

/-- `completionRate` of `calculateStats`: keep the records whose parsed date
is at least `now - 30 days` (no upper bound), count the completed ones, and
divide by the fixed denominator 30.  `now = today * dayMs + tod`. -/
def calcCompletionRate (records : List DailyRecord) (today tod : Int) : ℚ :=
  let nowMs := today * dayMs + tod
  let thirtyDaysAgo := nowMs - 30 * dayMs
  let last30 := records.filter (fun r => decide (thirtyDaysAgo ≤ r.date * dayMs))
  let completedLast30 := (last30.filter (·.completed)).length
  (completedLast30 : ℚ) / 30 * 100

/-- The `currentMonthStats` object of the home screen. -/
structure CurrentMonthStats where
  progress : ℚ
  completedDays : Nat
  totalDaysInMonth : Int
deriving Repr, DecidableEq

/-- `calculateCurrentMonthStats` from the home screen (`_layout.tsx`):
`firstDay` and `lastDay` are the epoch-day numbers of the first and last
calendar day of the current month, so `lastDay.getDate()` — the number of
days in the month — is `lastDay - firstDay + 1`.  Records are filtered to
the closed interval by `Date` comparison, completed ones are counted, and
progress is their share of the days of the month. -/
def calculateCurrentMonthStats (records : List DailyRecord)
    (firstDay lastDay : Int) : CurrentMonthStats :=
  let totalDaysInMonth := lastDay - firstDay + 1
  let currentMonthRecords := records.filter
    (fun r => decide (firstDay * dayMs ≤ r.date * dayMs) &&
              decide (r.date * dayMs ≤ lastDay * dayMs))
  let completedDays := (currentMonthRecords.filter (·.completed)).length
  { progress := (completedDays : ℚ) / (totalDaysInMonth : ℚ) * 100
    completedDays := completedDays
    totalDaysInMonth := totalDaysInMonth }

/-! ### Concrete sample data used by the theorems below -/

/-- A daily record with the given id, date and completion flag. -/
def mkRec (i : String) (d : Int) (c : Bool) : DailyRecord :=
  { id := i, date := d, capsules := 2, time := "09:00", notes := none,
    completed := c, createdAt := "t0", updatedAt := "t0" }

/-! ### C10 -/

/-- C10: for every patch, calling `updateUserProfile` when no profile is
stored does not fail: it stores an object consisting of exactly the
supplied fields plus a freshly stamped `updatedAt` — in particular
`createdAt` stays absent when the patch does not supply it, and the
documented default profile is not seeded. -/
theorem c10_update_profile_without_stored_profile (u : ProfileObj)
    (now : String) (s : Store) (h : s.profile = none) :
    updateUserProfile u now s =
      { s with profile := some {
          name := u.name, dateOfBirth := u.dateOfBirth, gender := u.gender,
          email := u.email, phone := u.phone,
          profileImageUrl := u.profileImageUrl,
          treatmentStartDate := u.treatmentStartDate,
          hasSeenTutorial := u.hasSeenTutorial,
          createdAt := u.createdAt, updatedAt := some now } } := by
  cases u
  simp [updateUserProfile, getUserProfile, h, mergeProfile, emptyProfileObj]

/-- C10 witness: the theorem applied to a concrete patch on the fresh
store. -/
theorem c10_update_profile_without_stored_profile_witness :
    updateUserProfile { emptyProfileObj with name := some "Ann" } "T1"
        freshStore =
      { freshStore with profile := some {
          name := some "Ann", dateOfBirth := none, gender := none,
          email := none, phone := none, profileImageUrl := none,
          treatmentStartDate := none, hasSeenTutorial := none,
          createdAt := none, updatedAt := some "T1" } } :=
  c10_update_profile_without_stored_profile _ "T1" freshStore rfl

/-! ### C3 -/

/-- C3 (amended): every mutating write to a stored record, profile or
settings object stamps `updatedAt` with the current time; `createdAt` is
unchanged provided the patch itself does not supply a `createdAt` field
(a patch containing `createdAt` overwrites it, see the counterexample). -/
theorem c3_update_timestamps (now : String) :
    (∀ (s : Store) (recId : String) (u : DailyRecordPatch) (s2 : Store),
       updateDailyRecord recId u now s = (Except.ok (), s2) →
       ∃ i rec, (getDailyRecords s).get? i = some rec ∧
         s2.records = (getDailyRecords s).set i (mergeRecord rec u now) ∧
         (mergeRecord rec u now).updatedAt = now ∧
         (u.createdAt = none →
           (mergeRecord rec u now).createdAt = rec.createdAt)) ∧
    (∀ (s : Store) (p : ProfileObj) (u : ProfileObj),
       s.profile = some p →
       (updateUserProfile u now s).profile = some (mergeProfile p u now) ∧
       (mergeProfile p u now).updatedAt = some now ∧
       (u.createdAt = none →
         (mergeProfile p u now).createdAt = p.createdAt)) ∧
    (∀ (s : Store) (st : UserSettings) (u : SettingsPatch),
       s.settings = some st →
       (updateUserSettings u now s).settings =
         some (mergeSettings st u now) ∧
       (mergeSettings st u now).updatedAt = now ∧
       (u.createdAt = none →
         (mergeSettings st u now).createdAt = st.createdAt)) := by
  refine ⟨?_, ?_, ?_⟩
  · intro s recId u s2 h
    simp only [updateDailyRecord] at h
    split at h
    · exact absurd (congrArg Prod.fst h) (by simp)
    · rename_i i hf
      obtain ⟨hlt, hp, -⟩ := List.findIdx?_eq_some_iff_getElem.mp hf
      refine ⟨i, (getDailyRecords s)[i], ?_, ?_, rfl, ?_⟩
      · simp [List.get?_eq_getElem?, List.getElem?_eq_getElem hlt]
      · have h2 := congrArg Prod.snd h
        simp only at h2
        rw [← h2]
        simp [List.get?_eq_getElem?, List.getElem?_eq_getElem hlt]
      · intro hc
        simp [mergeRecord, hc]
  · intro s p u h
    refine ⟨?_, rfl, ?_⟩
    · simp [updateUserProfile, getUserProfile, h]
    · intro hc
      simp [mergeProfile, hc]
  · intro s st u h
    refine ⟨?_, rfl, ?_⟩
    · simp [updateUserSettings, getUserSettings, h]
    · intro hc
      simp [mergeSettings, hc]

/-- A store holding one record whose `createdAt` is the string `A`. -/
def c3Store : Store :=
  { freshStore with records :=
      [{ mkRec "r1" 20000 true with createdAt := "A" }] }

/-- C3 counterexample: the claim quantifies over every patch, but a patch
that itself contains a `createdAt` key overwrites the stored `createdAt`:
updating the record created with `createdAt = A` by a patch carrying
`createdAt = B` leaves the store with `createdAt = B`. -/
theorem c3_update_timestamps_counterexample :
    ((updateDailyRecord "r1" { createdAt := some "B" } "T2" c3Store).2.records.map
        (fun r => r.createdAt)) = ["B"] ∧ "B" ≠ "A" := by
  constructor
  · rfl
  · decide

/-- A profile stored for the C3 witness. -/
def c3Profile : ProfileObj :=
  { emptyProfileObj with
    name := some "Bo", createdAt := some "C0", updatedAt := some "C0" }

/-- C3 witness: the profile part of the theorem applied to a concrete
store whose patch has no `createdAt`. -/
theorem c3_update_timestamps_witness :
    (updateUserProfile { emptyProfileObj with phone := some "555" } "T3"
        { freshStore with profile := some c3Profile }).profile =
      some (mergeProfile c3Profile
        { emptyProfileObj with phone := some "555" } "T3") ∧
    (mergeProfile c3Profile
        { emptyProfileObj with phone := some "555" } "T3").updatedAt =
      some "T3" ∧
    (mergeProfile c3Profile
        { emptyProfileObj with phone := some "555" } "T3").createdAt =
      c3Profile.createdAt := by
  obtain ⟨h1, h2, h3⟩ := (c3_update_timestamps "T3").2.1
    { freshStore with profile := some c3Profile } c3Profile
    { emptyProfileObj with phone := some "555" } rfl
  exact ⟨h1, h2, h3 rfl⟩

/-! ### C8 -/

/-- C8: when the stored records have pairwise-distinct dates,
`getDailyRecords` returns exactly those records (a permutation of the
stored list) in strictly date-descending order, whatever the stored
order. -/
theorem c8_records_sorted_descending (s : Store)
    (h : s.records.Pairwise (fun a b => a.date ≠ b.date)) :
    (getDailyRecords s).Perm s.records ∧
      (getDailyRecords s).Pairwise (fun a b => b.date < a.date) := by
  have hperm : (getDailyRecords s).Perm s.records :=
    List.perm_insertionSort _ _
  refine ⟨hperm, ?_⟩
  have hsorted : (getDailyRecords s).Pairwise dateGe :=
    List.sorted_insertionSort dateGe s.records
  have hne : (getDailyRecords s).Pairwise (fun a b => a.date ≠ b.date) :=
    (hperm.pairwise_iff fun hab => hab.symm).mpr h
  exact (hsorted.and hne).imp fun hab =>
    lt_of_le_of_ne hab.1 (Ne.symm hab.2)

/-- A store with three records stored in date-ascending order. -/
def c8Store : Store :=
  { freshStore with records :=
      [mkRec "a" 19998 true, mkRec "b" 19999 false, mkRec "c" 20000 true] }

/-- C8 witness: the theorem applied to a concrete unsorted store. -/
theorem c8_records_sorted_descending_witness :
    (getDailyRecords c8Store).Perm c8Store.records ∧
      (getDailyRecords c8Store).Pairwise (fun a b => b.date < a.date) :=
  c8_records_sorted_descending c8Store (by decide)

/-! ### C5 -/

/-- C5: exporting all data and importing the document into a fresh store
reproduces the profile, records and settings observed through the service
getters, while the exported `user` and metadata entries are ignored on
import, which never touches the user list, session keys or tutorial
flag of the target store. -/
theorem c5_export_import_round_trip :
    ∀ (s : Store) (now : String),
      getUserProfile (importAllData (exportAllData now s).1 freshStore) =
        getUserProfile s ∧
      getDailyRecords (importAllData (exportAllData now s).1 freshStore) =
        getDailyRecords s ∧
      (getUserSettings now
          (importAllData (exportAllData now s).1 freshStore)).1 =
        (getUserSettings now s).1 ∧
      (∀ (d : ExportData) (t : Store),
        (importAllData d t).users = t.users ∧
        (importAllData d t).currentUser = t.currentUser ∧
        (importAllData d t).authToken = t.authToken ∧
        (importAllData d t).tutorialSeen = t.tutorialSeen) := by
  intro s now
  have hidem : sortRecords (sortRecords s.records) = sortRecords s.records :=
    List.Sorted.insertionSort_eq (List.sorted_insertionSort dateGe s.records)
  refine ⟨?_, ?_, ?_, ?_⟩
  · cases hp : s.profile <;>
      simp [exportAllData, importAllData, getUserProfile, getUserSettings,
        freshStore, hp]
  · cases hp : s.profile <;>
      simp [exportAllData, importAllData, getUserProfile, getUserSettings,
        getDailyRecords, freshStore, hp, hidem]
  · cases hp : s.profile <;> cases hs : s.settings <;>
      simp [exportAllData, importAllData, getUserProfile, getUserSettings,
        freshStore, hp, hs]
  · intro d t
    obtain ⟨du, dp, dr, ds, m1, m2, m3⟩ := d
    cases dp <;> cases dr <;> cases ds <;> simp [importAllData]

/-! ### C6 -/

/-- C6: registering an email that case-insensitively matches a registered
user fails with the duplicate-email error and leaves the store — in
particular the user list — unchanged; otherwise the new user is appended,
the session is set, a default profile and default settings are seeded,
and the created user is returned. -/
theorem c6_register_email_uniqueness (s : Store)
    (email pw name : String) (nowMs : Int) (nowISO nowLocale : String) :
    ((∃ u ∈ s.users, lowerStr u.email = lowerStr email) →
      registerUser email pw name nowMs nowISO nowLocale s =
        (Except.error "Email already exists", s)) ∧
    ((∀ u ∈ s.users, lowerStr u.email ≠ lowerStr email) →
      registerUser email pw name nowMs nowISO nowLocale s =
        (Except.ok (registeredUser email name nowMs nowISO),
         { s with
           users := s.users ++ [registeredUser email name nowMs nowISO]
           currentUser := some (registeredUser email name nowMs nowISO)
           authToken := some ("token_" ++ toString nowMs)
           profile := some (defaultProfile name email nowISO nowLocale)
           settings := some (defaultSettings nowISO) })) := by
  constructor
  · rintro ⟨u, hu, he⟩
    rcases hf : s.users.find? (fun v => lowerStr v.email == lowerStr email)
      with _ | v
    · exact absurd he (by simpa using List.find?_eq_none.mp hf u hu)
    · simp [registerUser, hf]
  · intro h
    rcases hf : s.users.find? (fun v => lowerStr v.email == lowerStr email)
      with _ | v
    · simp [registerUser, hf]
    · exact absurd (by simpa using List.find?_some hf)
        (h v (List.mem_of_find?_eq_some hf))

/-- A store with one registered user whose email is `A@x.com`. -/
def c6Store : Store :=
  { freshStore with users :=
      [{ id := "user_1", email := "A@x.com", name := "Ann",
         createdAt := "t0", updatedAt := "t0" }] }

/-- C6 witness: a case-insensitive duplicate is rejected with the store
unchanged, and a fresh email is appended with session, profile and
settings seeded. -/
theorem c6_register_email_uniqueness_witness :
    registerUser "a@X.com" "pw" "Bo" 7 "T" "L" c6Store =
      (Except.error "Email already exists", c6Store) ∧
    registerUser "b@x.com" "pw" "Bo" 7 "T" "L" c6Store =
      (Except.ok (registeredUser "b@x.com" "Bo" 7 "T"),
       { c6Store with
         users := c6Store.users ++ [registeredUser "b@x.com" "Bo" 7 "T"]
         currentUser := some (registeredUser "b@x.com" "Bo" 7 "T")
         authToken := some ("token_" ++ toString (7 : Int))
         profile := some (defaultProfile "Bo" "b@x.com" "T" "L")
         settings := some (defaultSettings "T") }) :=
  ⟨(c6_register_email_uniqueness c6Store "a@X.com" "pw" "Bo" 7 "T" "L").1
      (by decide),
   (c6_register_email_uniqueness c6Store "b@x.com" "pw" "Bo" 7 "T" "L").2
      (by decide)⟩

/-! ### C9 -/

/-- C9: login fails with the user-not-found error exactly when no
registered user case-insensitively matches the email; the password is
never inspected (the result is the same for any two passwords); and on a
match the first matching user is returned with the session set to that
user and a freshly generated token. -/
theorem c9_login_ignores_password (s : Store) (email pw : String)
    (nowMs : Int) :
    ((loginUser email pw nowMs s).1 = Except.error "User not found" ↔
      ∀ u ∈ s.users, lowerStr u.email ≠ lowerStr email) ∧
    (∀ pw2, loginUser email pw nowMs s = loginUser email pw2 nowMs s) ∧
    (∀ u0,
      s.users.find? (fun u => lowerStr u.email == lowerStr email) = some u0 →
      loginUser email pw nowMs s =
        (Except.ok u0,
         { s with currentUser := some u0
                  authToken := some ("token_" ++ toString nowMs) })) := by
  refine ⟨⟨?_, ?_⟩, fun pw2 => rfl, ?_⟩
  · intro h u hu he
    rcases hf : s.users.find? (fun v => lowerStr v.email == lowerStr email)
      with _ | v
    · exact absurd he (by simpa using List.find?_eq_none.mp hf u hu)
    · simp [loginUser, hf] at h
  · intro h
    rcases hf : s.users.find? (fun v => lowerStr v.email == lowerStr email)
      with _ | v
    · simp [loginUser, hf]
    · exact absurd (by simpa using List.find?_some hf)
        (h v (List.mem_of_find?_eq_some hf))
  · intro u0 hf
    simp [loginUser, hf]

/-- C9 witness: on a store holding the user `A@x.com`, login with a
differently-cased email and an arbitrary password succeeds and sets the
session. -/
theorem c9_login_ignores_password_witness :
    loginUser "a@x.COM" "any password at all" 9 c6Store =
      (Except.ok { id := "user_1", email := "A@x.com", name := "Ann",
                   createdAt := "t0", updatedAt := "t0" },
       { c6Store with
         currentUser := some { id := "user_1", email := "A@x.com",
                               name := "Ann", createdAt := "t0",
                               updatedAt := "t0" }
         authToken := some ("token_" ++ toString (9 : Int)) }) :=
  (c9_login_ignores_password c6Store "a@x.COM" "any password at all" 9).2.2
    _ (by decide)

/-! ### C7 -/

/-- C7: updating a record id that is not present fails with the
record-not-found error and leaves the store unchanged; for a present id
the patch is merge-written into the first record carrying that id in the
date-descending list. -/
theorem c7_update_missing_record (s : Store) (recId : String)
    (u : DailyRecordPatch) (now : String) :
    ((∀ r ∈ s.records, r.id ≠ recId) →
      updateDailyRecord recId u now s =
        (Except.error "Record not found", s)) ∧
    ((∃ r ∈ s.records, r.id = recId) →
      ∃ i rec, (getDailyRecords s).get? i = some rec ∧ rec.id = recId ∧
        updateDailyRecord recId u now s =
          (Except.ok (),
           { s with records :=
               (getDailyRecords s).set i (mergeRecord rec u now) })) := by
  constructor
  · intro h
    have hf : (getDailyRecords s).findIdx? (fun r => r.id == recId) = none := by
      rw [List.findIdx?_eq_none_iff]
      intro r hr
      have hm : r ∈ s.records := by
        simpa [getDailyRecords, sortRecords] using hr
      simpa using h r hm
    simp [updateDailyRecord, hf]
  · rintro ⟨r, hr, hid⟩
    have hex : ∃ x ∈ getDailyRecords s, (x.id == recId) = true :=
      ⟨r, by simpa [getDailyRecords, sortRecords] using hr, by simp [hid]⟩
    have hf := List.findIdx?_eq_some_of_exists hex
    obtain ⟨hlt, hp, -⟩ := List.findIdx?_eq_some_iff_getElem.mp hf
    refine ⟨List.findIdx (fun x => x.id == recId) (getDailyRecords s),
      (getDailyRecords s).get
        ⟨List.findIdx (fun x => x.id == recId) (getDailyRecords s), hlt⟩,
      ?_, ?_, ?_⟩
    · simp [List.get?_eq_getElem?, List.getElem?_eq_getElem hlt]
    · simpa [List.get_eq_getElem] using hp
    · simp [updateDailyRecord, hf, List.get?_eq_getElem?, List.get_eq_getElem,
        List.getElem?_eq_getElem hlt]

/-- A store holding one record with id `r1`. -/
def c7Store : Store := { freshStore with records := [mkRec "r1" 20000 true] }

/-- C7 witness: updating a non-existent id on a concrete store fails and
leaves the store unchanged. -/
theorem c7_update_missing_record_witness :
    updateDailyRecord "zzz" {} "T4" c7Store =
      (Except.error "Record not found", c7Store) :=
  (c7_update_missing_record c7Store "zzz" {} "T4").1 (by decide)

/-! ### C1 -/

/-- Scaling a day comparison by the milliseconds-per-day factor does not
change it. -/
theorem day_scale_le_iff (a b : Int) : a * dayMs ≤ b * dayMs ↔ a ≤ b := by
  simp only [dayMs]
  omega

/-- Ten completed records inside the month bounds, one uncompleted inside,
one completed outside. -/
def c1ExampleRecords : List DailyRecord :=
  [mkRec "m1" 20005 true, mkRec "m2" 20006 true, mkRec "m3" 20007 true,
   mkRec "m4" 20008 true, mkRec "m5" 20009 true, mkRec "m6" 20010 true,
   mkRec "m7" 20011 true, mkRec "m8" 20012 true, mkRec "m9" 20013 true,
   mkRec "m10" 20014 true, mkRec "m11" 20015 false, mkRec "m12" 19990 true]

/-- C1: the monthly progress metric of the home screen filters the records
whose date lies in the closed interval from the first to the last day of
the current month, counts the completed ones as `completedDays`, and sets
`progress = completedDays / totalDaysInMonth * 100` with
`totalDaysInMonth` the actual number of days of the month; a 30-day month
with 10 completed-day records inside the bounds gives progress 100/3,
approximately 33.33. -/
theorem c1_monthly_progress :
    (∀ (records : List DailyRecord) (firstDay lastDay : Int),
      (calculateCurrentMonthStats records firstDay lastDay).totalDaysInMonth =
        lastDay - firstDay + 1 ∧
      (calculateCurrentMonthStats records firstDay lastDay).completedDays =
        records.countP (fun r =>
          r.completed && decide (firstDay ≤ r.date) &&
            decide (r.date ≤ lastDay)) ∧
      (calculateCurrentMonthStats records firstDay lastDay).progress =
        ((calculateCurrentMonthStats records firstDay lastDay).completedDays : ℚ) /
          ((lastDay - firstDay + 1 : Int) : ℚ) * 100) ∧
    (calculateCurrentMonthStats c1ExampleRecords 20000 20029).completedDays =
      10 ∧
    (calculateCurrentMonthStats c1ExampleRecords 20000 20029).totalDaysInMonth =
      30 ∧
    (calculateCurrentMonthStats c1ExampleRecords 20000 20029).progress =
      100 / 3 := by
  have hgen : ∀ (records : List DailyRecord) (firstDay lastDay : Int),
      (calculateCurrentMonthStats records firstDay lastDay).totalDaysInMonth =
        lastDay - firstDay + 1 ∧
      (calculateCurrentMonthStats records firstDay lastDay).completedDays =
        records.countP (fun r =>
          r.completed && decide (firstDay ≤ r.date) &&
            decide (r.date ≤ lastDay)) ∧
      (calculateCurrentMonthStats records firstDay lastDay).progress =
        ((calculateCurrentMonthStats records firstDay lastDay).completedDays : ℚ) /
          ((lastDay - firstDay + 1 : Int) : ℚ) * 100 := by
    intro records firstDay lastDay
    refine ⟨rfl, ?_, rfl⟩
    simp only [calculateCurrentMonthStats, List.filter_filter]
    rw [← List.countP_eq_length_filter]
    apply List.countP_congr
    intro r _
    simp only [day_scale_le_iff]
    cases r.completed <;> simp
  refine ⟨hgen, by decide, by decide, ?_⟩
  have hp := (hgen c1ExampleRecords 20000 20029).2.2
  have hc : (calculateCurrentMonthStats c1ExampleRecords 20000 20029).completedDays
      = 10 := by decide
  rw [hp, hc]
  norm_num

/-! ### C2 -/

/-- The 30-day filter condition of `calculateStats`, on a calendar-day
granularity: with the time of day strictly between midnight and the next
midnight, the parsed record date is at least `now − 30 days` exactly when
the record day is within the 29 days before today — or later, with no
upper bound. -/
theorem c2_window_iff (d today tod : Int) (h0 : 0 < tod) (h1 : tod < dayMs) :
    today * dayMs + tod - 30 * dayMs ≤ d * dayMs ↔ today - 29 ≤ d := by
  simp only [dayMs] at *
  omega

/-- The completion rate as a single count: the two filters of the source
collapse to one `countP` over the conjunction of the completion flag and
the window condition. -/
theorem calcCompletionRate_countP (rs : List DailyRecord) (t td : Int) :
    calcCompletionRate rs t td =
      ((rs.countP fun r =>
          r.completed &&
            decide (t * dayMs + td - 30 * dayMs ≤ r.date * dayMs)) : ℚ) /
        30 * 100 := by
  simp only [calcCompletionRate, List.filter_filter]
  rw [← List.countP_eq_length_filter]

/-- Six completed records within the last 30 days, two uncompleted ones
within the window, one completed record before the window. -/
def c2ExampleRecords : List DailyRecord :=
  [mkRec "d1" 19975 true, mkRec "d2" 19976 true, mkRec "d3" 19977 true,
   mkRec "d4" 19978 true, mkRec "d5" 19979 true, mkRec "d6" 19980 true,
   mkRec "d7" 19981 false, mkRec "d8" 19982 false, mkRec "d9" 19960 true]

/-- A completed record dated 100 days in the future. -/
def c2FutureRecord : DailyRecord := mkRec "future" 20100 true

/-- C2 counterexample: the claim says records dated outside the 30-day
window ending today — future dates in particular — do not contribute, so
a record list containing only a record dated 100 days ahead would give
completion rate 0; the filter in the code has no upper bound, keeps that
record, and yields 1/30 × 100 = 10/3 ≠ 0. -/
theorem c2_completion_rate_counterexample :
    calcCompletionRate [c2FutureRecord] 20000 1 = 10 / 3 ∧
      (10 / 3 : ℚ) ≠ 0 := by
  refine ⟨?_, by norm_num⟩
  rw [calcCompletionRate_countP]
  have h1 : ([c2FutureRecord].countP fun r =>
      r.completed &&
        decide ((20000 : Int) * dayMs + 1 - 30 * dayMs ≤ r.date * dayMs)) = 1 := by
    decide
  rw [h1]
  norm_num

/-- C2 (amended): the 30-day completion rate counts, among all records
whose parsed date is at least `now − 30 days` — a lower bound only, so
future-dated records also contribute — those with `completed = true`, and
equals that count divided by the fixed denominator 30, times 100; six
completed records within the last 30 calendar days (and nothing else
contributing) yield rate 20. -/
theorem c2_completion_rate (records : List DailyRecord) (today tod : Int)
    (h0 : 0 < tod) (h1 : tod < dayMs) :
    calcCompletionRate records today tod =
      ((records.countP fun r =>
          r.completed && decide (today - 29 ≤ r.date)) : ℚ) / 30 * 100 ∧
    calcCompletionRate c2ExampleRecords 20000 1 = 20 := by
  have hgen : ∀ (rs : List DailyRecord) (t td : Int), 0 < td → td < dayMs →
      calcCompletionRate rs t td =
        ((rs.countP fun r =>
            r.completed && decide (t - 29 ≤ r.date)) : ℚ) / 30 * 100 := by
    intro rs t td hlt0 hltd
    rw [calcCompletionRate_countP]
    have hc : (rs.countP fun r =>
        r.completed && decide (t * dayMs + td - 30 * dayMs ≤ r.date * dayMs)) =
        rs.countP fun r => r.completed && decide (t - 29 ≤ r.date) := by
      apply List.countP_congr
      intro r _
      simp only [c2_window_iff r.date t td hlt0 hltd]
    rw [hc]
  refine ⟨hgen records today tod h0 h1, ?_⟩
  rw [hgen c2ExampleRecords 20000 1 (by norm_num) (by norm_num [dayMs])]
  have h6 : (c2ExampleRecords.countP fun r =>
      r.completed && decide ((20000 : Int) - 29 ≤ r.date)) = 6 := by decide
  rw [h6]
  norm_num

/-- C2 witness: the amended theorem applied at a concrete afternoon
moment of day 20000. -/
theorem c2_completion_rate_witness :
    calcCompletionRate c2ExampleRecords 20000 1 =
      ((c2ExampleRecords.countP fun r =>
          r.completed && decide ((20000 : Int) - 29 ≤ r.date)) : ℚ) /
        30 * 100 ∧
    calcCompletionRate c2ExampleRecords 20000 1 = 20 :=
  c2_completion_rate c2ExampleRecords 20000 1 (by decide) (by decide)

/-! ### C4 -/

/-- The streak walk never counts more records than the list holds. -/
theorem streakWalk_le_length (today : Int) :
    ∀ (l : List DailyRecord) (i : Nat), streakWalk today l i ≤ l.length := by
  intro l
  induction l with
  | nil => intro i; simp [streakWalk]
  | cons r rs ih =>
    intro i
    simp only [streakWalk, List.length_cons]
    split
    · exact Nat.succ_le_succ (ih (i + 1))
    · exact Nat.zero_le _

/-- Every position below the count of the streak walk holds the consecutive
expected date. -/
theorem streakWalk_matches (today : Int) :
    ∀ (l : List DailyRecord) (i j : Nat), j < streakWalk today l i →
      (l.get? j).map (fun r => r.date) = some (today - (i + j : Nat)) := by
  intro l
  induction l with
  | nil => intro i j h; simp [streakWalk] at h
  | cons r rs ih =>
    intro i j h
    simp only [streakWalk] at h
    split at h
    · rename_i heq
      cases j with
      | zero => simpa using heq
      | succ j2 =>
        have hrec := ih (i + 1) j2 (by omega)
        have harith : i + 1 + j2 = i + (j2 + 1) := by omega
        rw [harith] at hrec
        simpa using hrec
    · omega

/-- The record at the stopping position of the streak walk, when it exists,
does not carry the expected consecutive date: the walk stops at the first
gap. -/
theorem streakWalk_gap (today : Int) :
    ∀ (l : List DailyRecord) (i : Nat) (r : DailyRecord),
      l.get? (streakWalk today l i) = some r →
      r.date ≠ today - (i + streakWalk today l i : Nat) := by
  intro l
  induction l with
  | nil => intro i r h; simp at h
  | cons a rs ih =>
    intro i r h
    by_cases hc : a.date = today - (i : Nat)
    · simp only [streakWalk, if_pos hc] at h ⊢
      have hrec := ih (i + 1) r (by simpa using h)
      have harith : i + 1 + streakWalk today rs (i + 1) =
          i + (streakWalk today rs (i + 1) + 1) := by omega
      rw [harith] at hrec
      exact hrec
    · simp only [streakWalk, if_neg hc] at h ⊢
      simp only [List.get?] at h
      cases h
      simpa using hc

/-- Completed records on today, today − 1, today − 2 and today − 5, plus
an uncompleted record on today − 3. -/
def c4ExampleA : List DailyRecord :=
  [mkRec "s1" 20000 true, mkRec "s2" 19999 true, mkRec "s3" 19998 true,
   mkRec "s4" 19995 true, mkRec "s5" 19997 false]

/-- Completed records on tomorrow, today and yesterday: the future-dated
record sits first in the date-descending order and ends the streak
immediately. -/
def c4ExampleB : List DailyRecord :=
  [mkRec "t1" 20001 true, mkRec "t2" 20000 true, mkRec "t3" 19999 true]

/-- C4: the current streak sorts the completed records by date descending
and walks from today backwards one day per index: every index below the
streak holds the date `today − index`, and the first record past the
streak — when there is one — breaks the chain; on records dated today,
today − 1, today − 2 and today − 5 the streak is 3, and a future-dated
record ends the streak at its position (streak 0 when it comes first). -/
theorem c4_current_streak :
    (∀ (records : List DailyRecord) (today : Int),
      calculateStreak records today ≤
        (sortRecords (records.filter (fun r => r.completed))).length ∧
      (∀ j, j < calculateStreak records today →
        ((sortRecords (records.filter (fun r => r.completed))).get? j).map
            (fun r => r.date) = some (today - (j : Nat))) ∧
      (∀ r,
        (sortRecords (records.filter (fun r => r.completed))).get?
            (calculateStreak records today) = some r →
        r.date ≠ today - (calculateStreak records today : Nat))) ∧
    calculateStreak c4ExampleA 20000 = 3 ∧
    calculateStreak c4ExampleB 20000 = 0 := by
  refine ⟨?_, by decide, by decide⟩
  intro records today
  refine ⟨streakWalk_le_length today _ 0, ?_, ?_⟩
  · intro j hj
    simpa using streakWalk_matches today _ 0 j hj
  · intro r h
    simpa using streakWalk_gap today _ 0 r h

/-- C4 witness: the general part of the theorem applied to the concrete
example, index 1 of the sorted completed records carries the date
today − 1. -/
theorem c4_current_streak_witness :
    ((sortRecords (c4ExampleA.filter (fun r => r.completed))).get? 1).map
        (fun r => r.date) = some ((20000 : Int) - ((1 : Nat) : Int)) :=
  (c4_current_streak.1 c4ExampleA 20000).2.1 1 (by decide)

end AppSpec
